import Mathlib

/-!
Shallow embedding of ecsctl.py, an AWS ECS command-line tool.

The AWS SDK (boto3) is modelled by an `AwsWorld` record of response
functions: each field gives, for given arguments, either the parsed
response the SDK call would return or the text of the exception it
would raise.  Operations that chain several SDK calls also return the
list of calls they performed, in order, so that claims about the call
chain can be stated.  The JSON config file is modelled as an
association list of keys to optional string values, matching the
shape the program ever writes.
-/

deriving instance DecidableEq for Except

namespace Ecsctl

/-- Python truthiness of an optional string: None and the empty string
are falsy, every other string is truthy. -/
def truthy : Option String → Bool
  | some s => s ≠ ""
  | none => false

/-- Python `a or b` on optional strings: yields b when a is None or the
empty string. -/
def pyOr (a b : Option String) : Option String :=
  match a with
  | some s => if s = "" then b else some s
  | none => b

/-- Relevant environment variables read by the program. -/
structure Env where
  AWS_PROFILE : Option String
  AWS_REGION : Option String
  AWS_ROLE_ARN : Option String

/-- State block of an EC2 instance as returned by describe_instances. -/
structure InstanceState where
  Name : String
deriving DecidableEq

/-- An EC2 instance record inside a reservation. -/
structure Ec2Instance where
  InstanceType : String
  State : InstanceState
deriving DecidableEq

/-- One reservation of a describe_instances response. -/
structure Reservation where
  Instances : List Ec2Instance
deriving DecidableEq

/-- A container instance record from describe_container_instances. -/
structure ContainerInstance where
  ec2InstanceId : String
  status : String
  runningTasksCount : Nat
deriving DecidableEq

/-- The record get_ec2_instances builds per container instance. -/
structure InstanceInfo where
  InstanceId : String
  InstanceType : String
  State : String
  Status : String
  RunningTasks : Nat
deriving DecidableEq

/-- A container record inside a described task. -/
structure TaskContainer where
  name : String
  lastStatus : String
  cpu : Option String
  memory : Option String
deriving DecidableEq

/-- A task record from describe_tasks; createdAt is an epoch-seconds
timestamp. -/
structure EcsTask where
  taskArn : String
  createdAt : Nat
  containers : List TaskContainer
deriving DecidableEq

/-- The record get_containers builds per container. -/
structure ContainerInfo where
  Name : String
  Status : String
  TaskId : String
  CPU : String
  Memory : String
  Created : String
deriving DecidableEq

/-- One entry of a describe_instance_information response. -/
structure InstanceInformation where
  instanceId : String
deriving DecidableEq

/-- Temporary credentials returned by STS assume_role. -/
structure Credentials where
  AccessKeyId : String
  SecretAccessKey : String
  SessionToken : String
deriving DecidableEq

/-- A boto3 Session, distinguished by how it was constructed. -/
inductive Session where
  | fromProfile (profile : String)
  | fromRegion (region : String)
  | fromProfileRegion (profile : Option String) (region : String)
  | fromCreds (accessKeyId secretAccessKey sessionToken region : String)
deriving DecidableEq

/-- One AWS SDK call together with its arguments, for call traces. -/
inductive AwsCall where
  | listClusters
  | listContainerInstances (cluster : String)
  | describeContainerInstances (cluster : String) (arns : List String)
  | describeInstances (instanceIds : List String)
  | listTasks (cluster : String)
  | describeTasks (cluster : String) (tasks : List String)
  | describeInstanceInformation (instanceId : String)
deriving DecidableEq

/-- The AWS side of the system: for each SDK call, the parsed response
or the exception text it raises. -/
structure AwsWorld where
  listClusters : Except String (List String)
  listContainerInstances : String → Except String (List String)
  describeContainerInstances : String → List String → Except String (List ContainerInstance)
  describeInstances : List String → Except String (List Reservation)
  listTasks : String → Except String (List String)
  describeTasks : String → List String → Except String (List EcsTask)
  describeInstanceInformation : String → Except String (List InstanceInformation)
  assumeRole : Session → String → String → Except String Credentials

/-! ## AWSClient (authentication) -/

/-- AWSClient state after __init__. -/
structure AWSClient where
  profile_name : Option String
  region : String

/-- AWSClient.__init__: the profile is the constructor argument or,
when that is falsy, the AWS_PROFILE environment variable; the region is
AWS_REGION with default ap-southeast-1. -/
def AWSClient.init (env : Env) (profile_name : Option String) : AWSClient :=
  { profile_name := pyOr profile_name env.AWS_PROFILE
    region := env.AWS_REGION.getD "ap-southeast-1" }

/-- AWSClient.authenticate: build a base session from the profile when
one is set, from the region alone otherwise; assume the role via STS
and return a session from the temporary credentials and the configured
region.  Any exception is re-raised with a wrapping message. -/
def AWSClient.authenticate (w : AwsWorld) (c : AWSClient) (role_arn : String)
    (session_name : String) : Except String Session :=
  let base :=
    if truthy c.profile_name then Session.fromProfile (c.profile_name.getD "")
    else Session.fromRegion c.region
  match w.assumeRole base role_arn session_name with
  | Except.ok creds =>
      Except.ok (Session.fromCreds creds.AccessKeyId creds.SecretAccessKey
        creds.SessionToken c.region)
  | Except.error e => Except.error ("Failed to authenticate with AWS: " ++ e)

/-- ECSController._initialize_aws_clients, reduced to the session it
selects: assume-role authentication when AWS_ROLE_ARN is set, otherwise
a plain session from the profile and the region. -/
def init_aws_clients (env : Env) (w : AwsWorld) : Except String Session :=
  let aws_client := AWSClient.init env none
  let role_arn := env.AWS_ROLE_ARN
  if truthy role_arn then
    AWSClient.authenticate w aws_client (role_arn.getD "") "AssumeRoleSession"
  else
    Except.ok (Session.fromProfileRegion aws_client.profile_name aws_client.region)

/-- ECSController.__init__: wraps any failure of client setup in an
ECSCommandError. -/
def ECSController.init (env : Env) (w : AwsWorld) : Except String Session :=
  match init_aws_clients env w with
  | Except.ok s => Except.ok s
  | Except.error e => Except.error ("Failed to initialize AWS clients: " ++ e)

/-! ## ClusterConfig (the JSON config file) -/

/-- The config file content: a JSON object mapping keys to a string or
null, as an association list in insertion order. -/
abbrev Config := List (String × Option String)

/-- Python dict assignment config[k] = v: replace the value when the
key is present, append otherwise. -/
def dictSet (cfg : Config) (k : String) (v : Option String) : Config :=
  if cfg.any (fun p => p.1 == k) then
    cfg.map (fun p => if p.1 == k then (k, v) else p)
  else cfg ++ [(k, v)]

/-- The file _ensure_config_exists writes when none exists. -/
def initialConfig : Config := [("current-cluster", none)]

/-- ClusterConfig.get_current_cluster: config.get of the one key. -/
def get_current_cluster (cfg : Config) : Option String :=
  match cfg.find? (fun p => p.1 == "current-cluster") with
  | some p => p.2
  | none => none

/-- ClusterConfig.set_current_cluster: load, set the one key, save. -/
def set_current_cluster (cfg : Config) (cluster_name : String) : Config :=
  dictSet cfg "current-cluster" (some cluster_name)

/-- Config files reachable from the initial file through ClusterConfig
operations (only set_current_cluster changes the file). -/
inductive ReachableConfig : Config → Prop where
  | init : ReachableConfig initialConfig
  | set (cfg : Config) (name : String) :
      ReachableConfig cfg → ReachableConfig (set_current_cluster cfg name)

/-! ## ECSController query operations -/

/-- Python str.split on a single separator character, over the list of
characters: splits at every separator, keeping empty groups. -/
def splitOnChar (c : Char) : List Char → List (List Char)
  | [] => [[]]
  | x :: xs =>
    if x = c then [] :: splitOnChar c xs
    else
      match splitOnChar c xs with
      | [] => [[x]]
      | g :: gs => (x :: g) :: gs

/-- Last component of a slash-separated string, Python split followed
by indexing with -1. -/
def lastSlashComponent (s : String) : String :=
  String.mk ((splitOnChar '/' s.data).getLastD [])

/-- ECSController.get_clusters. -/
def get_clusters (w : AwsWorld) : Except String (List String) :=
  match w.listClusters with
  | Except.ok clusters => Except.ok (clusters.map lastSlashComponent)
  | Except.error e => Except.error ("Failed to get clusters: " ++ e)

/-- The record built from one container instance and the head EC2
instance of the head reservation of its describe_instances response;
indexing an empty list raises IndexError. -/
def extract_instance_info (reservations : List Reservation)
    (inst : ContainerInstance) : Except String InstanceInfo :=
  match reservations with
  | [] => Except.error "list index out of range"
  | res :: _ =>
    match res.Instances with
    | [] => Except.error "list index out of range"
    | ec2 :: _ =>
      Except.ok
        { InstanceId := inst.ec2InstanceId
          InstanceType := ec2.InstanceType
          State := ec2.State.Name
          Status := inst.status
          RunningTasks := inst.runningTasksCount }

/-- The per-instance loop of get_ec2_instances: one describe_instances
call per container instance, stopping at the first exception.  Returns
the collected records (or the raw exception) and the calls made. -/
def describeLoop (w : AwsWorld) :
    List ContainerInstance → Except String (List InstanceInfo) × List AwsCall
  | [] => (Except.ok [], [])
  | inst :: rest =>
    match w.describeInstances [inst.ec2InstanceId] with
    | Except.error e => (Except.error e, [AwsCall.describeInstances [inst.ec2InstanceId]])
    | Except.ok reservations =>
      match extract_instance_info reservations inst with
      | Except.error e => (Except.error e, [AwsCall.describeInstances [inst.ec2InstanceId]])
      | Except.ok info =>
        ((describeLoop w rest).1.map (fun l => info :: l),
         AwsCall.describeInstances [inst.ec2InstanceId] :: (describeLoop w rest).2)

/-- ECSController.get_ec2_instances, with the trace of SDK calls made. -/
def get_ec2_instances (w : AwsWorld) (cluster_name : String) :
    Except String (List InstanceInfo) × List AwsCall :=
  match w.listContainerInstances cluster_name with
  | Except.error e =>
      (Except.error ("Failed to get EC2 instances: " ++ e),
       [AwsCall.listContainerInstances cluster_name])
  | Except.ok container_instances =>
    if container_instances.isEmpty then
      (Except.ok [], [AwsCall.listContainerInstances cluster_name])
    else
      match w.describeContainerInstances cluster_name container_instances with
      | Except.error e =>
          (Except.error ("Failed to get EC2 instances: " ++ e),
           [AwsCall.listContainerInstances cluster_name,
            AwsCall.describeContainerInstances cluster_name container_instances])
      | Except.ok insts =>
          (match (describeLoop w insts).1 with
           | Except.ok infos => Except.ok infos
           | Except.error e => Except.error ("Failed to get EC2 instances: " ++ e),
           AwsCall.listContainerInstances cluster_name ::
             AwsCall.describeContainerInstances cluster_name container_instances ::
             (describeLoop w insts).2)

/-- Two-digit zero-padded decimal. -/
def pad2 (n : Nat) : String :=
  if n < 10 then "0" ++ toString n else toString n

/-- Four-digit zero-padded decimal. -/
def pad4 (n : Nat) : String :=
  if n < 10 then "000" ++ toString n
  else if n < 100 then "00" ++ toString n
  else if n < 1000 then "0" ++ toString n
  else toString n

/-- Proleptic Gregorian date (year, month, day) of a day count since
1970-01-01, the standard era-based civil-from-days computation. -/
def civilFromDays (days : Nat) : Nat × Nat × Nat :=
  let z := days + 719468
  let era := z / 146097
  let doe := z % 146097
  let yoe := (doe - doe / 1460 + doe / 36524 - doe / 146096) / 365
  let y := yoe + era * 400
  let doy := doe - (365 * yoe + yoe / 4 - yoe / 100)
  let mp := (5 * doy + 2) / 153
  let d := doy - (153 * mp + 2) / 5 + 1
  let m := if mp < 10 then mp + 3 else mp - 9
  (if m ≤ 2 then y + 1 else y, m, d)

/-- Models datetime.fromtimestamp(...).strftime of the pattern
%Y-%m-%d %H:%M:%S on an epoch-seconds timestamp (UTC). -/
def format_timestamp (t : Nat) : String :=
  let (y, m, d) := civilFromDays (t / 86400)
  let s := t % 86400
  pad4 y ++ "-" ++ pad2 m ++ "-" ++ pad2 d ++ " " ++
    pad2 (s / 3600) ++ ":" ++ pad2 (s % 3600 / 60) ++ ":" ++ pad2 (s % 60)

/-- The record get_containers builds for one container of a task. -/
def container_record (task : EcsTask) (c : TaskContainer) : ContainerInfo :=
  { Name := c.name
    Status := c.lastStatus
    TaskId := lastSlashComponent task.taskArn
    CPU := c.cpu.getD "N/A"
    Memory := c.memory.getD "N/A"
    Created := format_timestamp task.createdAt }

/-- ECSController.get_containers, with the trace of SDK calls made. -/
def get_containers (w : AwsWorld) (cluster_name : String) :
    Except String (List ContainerInfo) × List AwsCall :=
  match w.listTasks cluster_name with
  | Except.error e =>
      (Except.error ("Failed to get containers: " ++ e),
       [AwsCall.listTasks cluster_name])
  | Except.ok tasks =>
    if tasks.isEmpty then
      (Except.ok [], [AwsCall.listTasks cluster_name])
    else
      match w.describeTasks cluster_name tasks with
      | Except.error e =>
          (Except.error ("Failed to get containers: " ++ e),
           [AwsCall.listTasks cluster_name, AwsCall.describeTasks cluster_name tasks])
      | Except.ok described =>
          (Except.ok (described.flatMap (fun task => task.containers.map (container_record task))),
           [AwsCall.listTasks cluster_name, AwsCall.describeTasks cluster_name tasks])

/-- ECSController.get_instance_details: first record of
get_ec2_instances whose InstanceId matches, None when there is none. -/
def get_instance_details (w : AwsWorld) (cluster_name instance_id : String) :
    Except String (Option InstanceInfo) :=
  match (get_ec2_instances w cluster_name).1 with
  | Except.error e => Except.error ("Failed to get instance details: " ++ e)
  | Except.ok insts =>
      Except.ok (insts.find? (fun i => i.InstanceId == instance_id))

/-- ECSController.check_ssm_status: whether the instance appears in
describe_instance_information; any exception yields False. -/
def check_ssm_status (w : AwsWorld) (instance_id : String) : Except String Bool :=
  match w.describeInstanceInformation instance_id with
  | Except.ok l => Except.ok (l.length > 0)
  | Except.error _ => Except.ok false

/-! ## CLI commands -/

/-- Outcome of the use-cluster command. -/
inductive UseClusterResult where
  | switched
  | exitOne
deriving DecidableEq

/-- The use-cluster command: verify the name against get_clusters, then
persist it; on any error or unknown name, exit 1 leaving the file as
it was. -/
def use_cluster (env : Env) (w : AwsWorld) (cfg : Config) (cluster_name : String) :
    UseClusterResult × Config :=
  match ECSController.init env w with
  | Except.error _ => (UseClusterResult.exitOne, cfg)
  | Except.ok _ =>
    match get_clusters w with
    | Except.error _ => (UseClusterResult.exitOne, cfg)
    | Except.ok clusters =>
      if cluster_name ∈ clusters then
        (UseClusterResult.switched, set_current_cluster cfg cluster_name)
      else (UseClusterResult.exitOne, cfg)

/-- Outcome of the exec command. -/
inductive ExecResult where
  | launched (cmd : List String)
  | exitOne
deriving DecidableEq

/-- The aws ssm start-session command line the exec command builds. -/
def ssm_command (env : Env) (instance_id : String) : List String :=
  let c := AWSClient.init env none
  ["aws", "ssm", "start-session", "--target", instance_id]
    ++ (if truthy c.profile_name then ["--profile", c.profile_name.getD ""] else [])
    ++ ["--region", c.region]

/-- The exec command: require a selected cluster, a matching instance
in it, and SSM availability before launching the subprocess; exit 1
otherwise (including on any ECSCommandError). -/
def exec_instance (env : Env) (w : AwsWorld) (cfg : Config) (instance_id : String) :
    ExecResult :=
  match ECSController.init env w with
  | Except.error _ => ExecResult.exitOne
  | Except.ok _ =>
    let current := get_current_cluster cfg
    if truthy current = false then ExecResult.exitOne
    else
      match get_instance_details w (current.getD "") instance_id with
      | Except.error _ => ExecResult.exitOne
      | Except.ok none => ExecResult.exitOne
      | Except.ok (some _) =>
        match check_ssm_status w instance_id with
        | Except.ok true => ExecResult.launched (ssm_command env instance_id)
        | _ => ExecResult.exitOne

/-! ## Concrete sample data -/

/-- A sample environment: profile set, no region, no role. -/
def env0 : Env :=
  { AWS_PROFILE := some "dev", AWS_REGION := none, AWS_ROLE_ARN := none }

/-- A sample environment with a role ARN and a profile. -/
def envRole : Env :=
  { AWS_PROFILE := some "dev", AWS_REGION := some "us-east-1"
    AWS_ROLE_ARN := some "arn:aws:iam::123456789012:role/MyRole" }

/-- A sample environment with a role ARN and no profile. -/
def envRoleNoProfile : Env :=
  { AWS_PROFILE := none, AWS_REGION := none
    AWS_ROLE_ARN := some "arn:aws:iam::123456789012:role/MyRole" }

/-- A sample AWS world with one cluster, one container instance, one
task, and SSM available. -/
def w0 : AwsWorld :=
  { listClusters := Except.ok ["arn:aws:ecs:ap-southeast-1:123456789012:cluster/prod"]
    listContainerInstances := fun _ =>
      Except.ok ["arn:aws:ecs:ap-southeast-1:123456789012:container-instance/prod/abc"]
    describeContainerInstances := fun _ _ =>
      Except.ok [{ ec2InstanceId := "i-0a", status := "ACTIVE", runningTasksCount := 2 }]
    describeInstances := fun _ =>
      Except.ok [{ Instances := [{ InstanceType := "t3.medium", State := { Name := "running" } }] }]
    listTasks := fun _ =>
      Except.ok ["arn:aws:ecs:ap-southeast-1:123456789012:task/prod/task1"]
    describeTasks := fun _ _ =>
      Except.ok [{ taskArn := "arn:aws:ecs:ap-southeast-1:123456789012:task/prod/task1"
                   createdAt := 86400
                   containers := [{ name := "web", lastStatus := "RUNNING"
                                    cpu := some "256", memory := none }] }]
    describeInstanceInformation := fun _ => Except.ok [{ instanceId := "i-0a" }]
    assumeRole := fun _ _ _ =>
      Except.ok { AccessKeyId := "AK", SecretAccessKey := "SK", SessionToken := "TOK" } }

/-- A sample AWS world in which every SDK call raises. -/
def wFail : AwsWorld :=
  { listClusters := Except.error "boom"
    listContainerInstances := fun _ => Except.error "boom"
    describeContainerInstances := fun _ _ => Except.error "boom"
    describeInstances := fun _ => Except.error "boom"
    listTasks := fun _ => Except.error "boom"
    describeTasks := fun _ _ => Except.error "boom"
    describeInstanceInformation := fun _ => Except.error "boom"
    assumeRole := fun _ _ _ => Except.error "boom" }

/-- A sample AWS world whose list calls all return empty results. -/
def wEmpty : AwsWorld :=
  { listClusters := Except.ok []
    listContainerInstances := fun _ => Except.ok []
    describeContainerInstances := fun _ _ => Except.ok []
    describeInstances := fun _ => Except.ok []
    listTasks := fun _ => Except.ok []
    describeTasks := fun _ _ => Except.ok []
    describeInstanceInformation := fun _ => Except.ok []
    assumeRole := fun _ _ _ =>
      Except.ok { AccessKeyId := "AK", SecretAccessKey := "SK", SessionToken := "TOK" } }

/-- A sample AWS world whose list calls succeed with one result but
whose describe calls all raise. -/
def wDeepFail : AwsWorld :=
  { listClusters := Except.ok ["arn:aws:ecs:ap-southeast-1:123456789012:cluster/prod"]
    listContainerInstances := fun _ => Except.ok ["arnA"]
    describeContainerInstances := fun _ _ => Except.error "boom"
    describeInstances := fun _ => Except.error "boom"
    listTasks := fun _ => Except.ok ["taskA"]
    describeTasks := fun _ _ => Except.error "boom"
    describeInstanceInformation := fun _ => Except.error "boom"
    assumeRole := fun _ _ _ =>
      Except.ok { AccessKeyId := "AK", SecretAccessKey := "SK", SessionToken := "TOK" } }

/-- A sample AWS world where only the per-instance describe_instances
call raises. -/
def wLoopFail : AwsWorld :=
  { listClusters := Except.ok ["arn:aws:ecs:ap-southeast-1:123456789012:cluster/prod"]
    listContainerInstances := fun _ => Except.ok ["arnA"]
    describeContainerInstances := fun _ _ =>
      Except.ok [{ ec2InstanceId := "i-0a", status := "ACTIVE", runningTasksCount := 2 }]
    describeInstances := fun _ => Except.error "boom"
    listTasks := fun _ => Except.ok ["taskA"]
    describeTasks := fun _ _ => Except.ok []
    describeInstanceInformation := fun _ => Except.ok []
    assumeRole := fun _ _ _ =>
      Except.ok { AccessKeyId := "AK", SecretAccessKey := "SK", SessionToken := "TOK" } }

/-- A sample config file with a selected cluster. -/
def cfg0 : Config := [("current-cluster", some "prod")]

/-! ## Theorems -/

/-- find? skips a prefix on which the predicate is false. -/
theorem find?_append_of_forall_false {α : Type} (p : α → Bool) (pre l : List α)
    (h : ∀ i ∈ pre, p i = false) : List.find? p (pre ++ l) = List.find? p l := by
  induction pre with
  | nil => rfl
  | cons a t ih =>
    have ha := h a (by simp)
    simp only [List.cons_append, List.find?, ha]
    exact ih (fun i hi => h i (by simp [hi]))

/-- Claim C7: get_clusters returns, for each cluster ARN of the
list_clusters response, the substring after the last slash of the ARN,
in the order the ARNs are returned. -/
theorem c7_get_clusters (w : AwsWorld) (arns : List String)
    (h : w.listClusters = Except.ok arns) :
    get_clusters w = Except.ok (arns.map lastSlashComponent) := by
  simp [get_clusters, h]

/-- Witness for C7 on the sample world. -/
theorem c7_get_clusters_witness :
    get_clusters w0 =
      Except.ok (["arn:aws:ecs:ap-southeast-1:123456789012:cluster/prod"].map
        lastSlashComponent) ∧
    ["arn:aws:ecs:ap-southeast-1:123456789012:cluster/prod"].map lastSlashComponent =
      ["prod"] :=
  ⟨c7_get_clusters w0 _ rfl, by decide⟩

/-- Claim C4: starting from the initial file, every config file
reachable through ClusterConfig operations contains exactly the one
key current-cluster. -/
theorem c4_config_single_key (cfg : Config) (h : ReachableConfig cfg) :
    cfg.map Prod.fst = ["current-cluster"] := by
  induction h with
  | init => rfl
  | set cfg name hr ih =>
    cases cfg with
    | nil => simp at ih
    | cons p t =>
      cases t with
      | nil =>
        have hp : p.1 = "current-cluster" := by simpa using ih
        simp [set_current_cluster, dictSet, hp]
      | cons q u => simp at ih

/-- Witness for C4 after one set_current_cluster step. -/
theorem c4_config_single_key_witness :
    ReachableConfig (set_current_cluster initialConfig "prod") ∧
    (set_current_cluster initialConfig "prod").map Prod.fst = ["current-cluster"] :=
  have h : ReachableConfig (set_current_cluster initialConfig "prod") :=
    ReachableConfig.set initialConfig "prod" ReachableConfig.init
  ⟨h, c4_config_single_key _ h⟩

/-- Claim C8: on an empty list_container_instances result,
get_ec2_instances returns the empty list with no further SDK call; on
an empty list_tasks result, get_containers does likewise.  Neither
raises. -/
theorem c8_empty_results (w : AwsWorld) (cluster_name : String) :
    (w.listContainerInstances cluster_name = Except.ok [] →
       get_ec2_instances w cluster_name =
         (Except.ok [], [AwsCall.listContainerInstances cluster_name]))
    ∧ (w.listTasks cluster_name = Except.ok [] →
       get_containers w cluster_name =
         (Except.ok [], [AwsCall.listTasks cluster_name])) := by
  constructor
  · intro h
    simp [get_ec2_instances, h]
  · intro h
    simp [get_containers, h]

/-- Witness for C8 on the sample world with empty list results. -/
theorem c8_empty_results_witness :
    get_ec2_instances wEmpty "prod" =
      (Except.ok [], [AwsCall.listContainerInstances "prod"]) ∧
    get_containers wEmpty "prod" = (Except.ok [], [AwsCall.listTasks "prod"]) :=
  ⟨(c8_empty_results wEmpty "prod").1 rfl, (c8_empty_results wEmpty "prod").2 rfl⟩

/-- Claim C9: when get_ec2_instances succeeds, get_instance_details
returns None when no record has the given InstanceId, and the first
matching record otherwise; it raises in neither case. -/
theorem c9_instance_details (w : AwsWorld) (cluster_name instance_id : String)
    (insts : List InstanceInfo)
    (h : (get_ec2_instances w cluster_name).1 = Except.ok insts) :
    ((∀ i ∈ insts, i.InstanceId ≠ instance_id) →
       get_instance_details w cluster_name instance_id = Except.ok none)
    ∧ (∀ pre j post, insts = pre ++ j :: post →
        (∀ i ∈ pre, i.InstanceId ≠ instance_id) → j.InstanceId = instance_id →
        get_instance_details w cluster_name instance_id = Except.ok (some j)) := by
  constructor
  · intro hnone
    have hf : insts.find? (fun i => i.InstanceId == instance_id) = none := by
      rw [List.find?_eq_none]
      intro x hx
      simpa using hnone x hx
    simp [get_instance_details, h, hf]
  · intro pre j post hsplit hpre hj
    have hf : insts.find? (fun i => i.InstanceId == instance_id) = some j := by
      rw [hsplit, find?_append_of_forall_false _ pre _
        (fun i hi => by simpa using hpre i hi)]
      simp [List.find?, hj]
    simp [get_instance_details, h, hf]

/-- Witness for C9 on the sample world: a missing id yields None, the
present id yields its record. -/
theorem c9_instance_details_witness :
    get_instance_details w0 "prod" "i-zz" = Except.ok none ∧
    get_instance_details w0 "prod" "i-0a" =
      Except.ok (some { InstanceId := "i-0a", InstanceType := "t3.medium",
                        State := "running", Status := "ACTIVE", RunningTasks := 2 }) :=
  ⟨(c9_instance_details w0 "prod" "i-zz" _ rfl).1 (by decide),
   (c9_instance_details w0 "prod" "i-0a" _ rfl).2 []
     { InstanceId := "i-0a", InstanceType := "t3.medium", State := "running",
       Status := "ACTIVE", RunningTasks := 2 } [] rfl (by simp) rfl⟩

/-- Counterexample to C3 as stated: when describe_instance_information
raises, check_ssm_status does not raise an ECSCommandError wrapping the
SDK error; it silently discards it and returns False. -/
theorem c3_counterexample : check_ssm_status wFail "i-0a" = Except.ok false := by
  decide

/-- The per-instance loop of get_ec2_instances propagates the
exception of the first failing describe_instances call. -/
theorem describeLoop_error (w : AwsWorld) (f : ContainerInstance → Ec2Instance)
    (pre : List ContainerInstance) (i : ContainerInstance)
    (post : List ContainerInstance) (e : String)
    (hpre : ∀ j ∈ pre, ∃ extra res, w.describeInstances [j.ec2InstanceId] =
       Except.ok ({ Instances := f j :: extra } :: res))
    (hi : w.describeInstances [i.ec2InstanceId] = Except.error e) :
    (describeLoop w (pre ++ i :: post)).1 = Except.error e := by
  induction pre with
  | nil => simp [describeLoop, hi]
  | cons a t ih =>
    obtain ⟨extra, res, hd⟩ := hpre a (by simp)
    have iht := ih (fun j hj => hpre j (by simp [hj]))
    simp [describeLoop, hd, extract_instance_info, iht, Except.map]

/-- Claim C3 (amended): for get_clusters, get_ec2_instances,
get_containers and get_instance_details, an exception raised by any of
their underlying SDK calls propagates to the caller as a raised
ECSCommandError whose message wraps the original exception text;
check_ssm_status alone silently discards the SDK error and returns
False instead of raising. -/
theorem c3_error_wrapping (w : AwsWorld) (cluster_name instance_id e : String) :
    (w.listClusters = Except.error e →
       get_clusters w = Except.error ("Failed to get clusters: " ++ e))
    ∧ (w.listContainerInstances cluster_name = Except.error e →
       (get_ec2_instances w cluster_name).1 =
         Except.error ("Failed to get EC2 instances: " ++ e))
    ∧ (∀ arns, w.listContainerInstances cluster_name = Except.ok arns →
       arns ≠ [] → w.describeContainerInstances cluster_name arns = Except.error e →
       (get_ec2_instances w cluster_name).1 =
         Except.error ("Failed to get EC2 instances: " ++ e))
    ∧ (∀ (arns : List String) (insts : List ContainerInstance)
         (f : ContainerInstance → Ec2Instance) (pre : List ContainerInstance)
         (i : ContainerInstance) (post : List ContainerInstance),
       w.listContainerInstances cluster_name = Except.ok arns → arns ≠ [] →
       w.describeContainerInstances cluster_name arns = Except.ok insts →
       insts = pre ++ i :: post →
       (∀ j ∈ pre, ∃ extra res, w.describeInstances [j.ec2InstanceId] =
          Except.ok ({ Instances := f j :: extra } :: res)) →
       w.describeInstances [i.ec2InstanceId] = Except.error e →
       (get_ec2_instances w cluster_name).1 =
         Except.error ("Failed to get EC2 instances: " ++ e))
    ∧ (w.listTasks cluster_name = Except.error e →
       (get_containers w cluster_name).1 =
         Except.error ("Failed to get containers: " ++ e))
    ∧ (∀ tasks, w.listTasks cluster_name = Except.ok tasks → tasks ≠ [] →
       w.describeTasks cluster_name tasks = Except.error e →
       (get_containers w cluster_name).1 =
         Except.error ("Failed to get containers: " ++ e))
    ∧ (∀ m, (get_ec2_instances w cluster_name).1 = Except.error m →
       get_instance_details w cluster_name instance_id =
         Except.error ("Failed to get instance details: " ++ m))
    ∧ (w.describeInstanceInformation instance_id = Except.error e →
       check_ssm_status w instance_id = Except.ok false) := by
  refine ⟨?_, ?_, ?_, ?_, ?_, ?_, ?_, ?_⟩
  · intro h
    simp [get_clusters, h]
  · intro h
    simp [get_ec2_instances, h]
  · intro arns h1 h2 h3
    have hemp : arns.isEmpty = false := by
      cases arns with
      | nil => exact absurd rfl h2
      | cons a t => rfl
    simp [get_ec2_instances, h1, hemp, h3]
  · intro arns insts f pre i post h1 h2 h3 hsplit hpre hi
    have hemp : arns.isEmpty = false := by
      cases arns with
      | nil => exact absurd rfl h2
      | cons a t => rfl
    have hloop : (describeLoop w insts).1 = Except.error e := by
      rw [hsplit]
      exact describeLoop_error w f pre i post e hpre hi
    simp [get_ec2_instances, h1, hemp, h3, hloop]
  · intro h
    simp [get_containers, h]
  · intro tasks h1 h2 h3
    have hemp : tasks.isEmpty = false := by
      cases tasks with
      | nil => exact absurd rfl h2
      | cons a t => rfl
    simp [get_containers, h1, hemp, h3]
  · intro m hm
    simp [get_instance_details, hm]
  · intro h
    simp [check_ssm_status, h]

/-- Witness for the amended C3: each SDK failure point exercised on a
concrete world, showing the wrapped raised error (or False from
check_ssm_status). -/
theorem c3_error_wrapping_witness :
    get_clusters wFail = Except.error ("Failed to get clusters: " ++ "boom")
    ∧ (get_ec2_instances wFail "prod").1 =
        Except.error ("Failed to get EC2 instances: " ++ "boom")
    ∧ (get_ec2_instances wDeepFail "prod").1 =
        Except.error ("Failed to get EC2 instances: " ++ "boom")
    ∧ (get_ec2_instances wLoopFail "prod").1 =
        Except.error ("Failed to get EC2 instances: " ++ "boom")
    ∧ (get_containers wFail "prod").1 =
        Except.error ("Failed to get containers: " ++ "boom")
    ∧ (get_containers wDeepFail "prod").1 =
        Except.error ("Failed to get containers: " ++ "boom")
    ∧ get_instance_details wFail "prod" "i-0a" =
        Except.error ("Failed to get instance details: " ++
          "Failed to get EC2 instances: boom")
    ∧ check_ssm_status wFail "i-0a" = Except.ok false :=
  ⟨(c3_error_wrapping wFail "prod" "i-0a" "boom").1 rfl,
   (c3_error_wrapping wFail "prod" "i-0a" "boom").2.1 rfl,
   (c3_error_wrapping wDeepFail "prod" "i-0a" "boom").2.2.1 ["arnA"] rfl
     (by decide) rfl,
   (c3_error_wrapping wLoopFail "prod" "i-0a" "boom").2.2.2.1 ["arnA"]
     [{ ec2InstanceId := "i-0a", status := "ACTIVE", runningTasksCount := 2 }]
     (fun _ => { InstanceType := "", State := { Name := "" } })
     [] { ec2InstanceId := "i-0a", status := "ACTIVE", runningTasksCount := 2 } []
     rfl (by decide) rfl rfl (by simp) rfl,
   (c3_error_wrapping wFail "prod" "i-0a" "boom").2.2.2.2.1 rfl,
   (c3_error_wrapping wDeepFail "prod" "i-0a" "boom").2.2.2.2.2.1 ["taskA"] rfl
     (by decide) rfl,
   (c3_error_wrapping wFail "prod" "i-0a" "boom").2.2.2.2.2.2.1
     "Failed to get EC2 instances: boom" (by decide),
   (c3_error_wrapping wFail "prod" "i-0a" "boom").2.2.2.2.2.2.2 rfl⟩

/-- Claim C1: AWS_ROLE_ARN set selects assume-role authentication (the
resulting session is built from the STS temporary credentials and the
configured region, and the base STS session uses the profile when set
and the region alone otherwise); with no role ARN a plain session is
built from the profile and the region (AWS_REGION defaulting to
ap-southeast-1). -/
theorem c1_auth_precedence (env : Env) (w : AwsWorld) :
    (∀ arn p creds, env.AWS_ROLE_ARN = some arn → arn ≠ "" →
       env.AWS_PROFILE = some p → p ≠ "" →
       w.assumeRole (Session.fromProfile p) arn "AssumeRoleSession" = Except.ok creds →
       init_aws_clients env w =
         Except.ok (Session.fromCreds creds.AccessKeyId creds.SecretAccessKey
           creds.SessionToken (env.AWS_REGION.getD "ap-southeast-1")))
    ∧ (∀ arn creds, env.AWS_ROLE_ARN = some arn → arn ≠ "" →
       truthy env.AWS_PROFILE = false →
       w.assumeRole (Session.fromRegion (env.AWS_REGION.getD "ap-southeast-1")) arn
           "AssumeRoleSession" = Except.ok creds →
       init_aws_clients env w =
         Except.ok (Session.fromCreds creds.AccessKeyId creds.SecretAccessKey
           creds.SessionToken (env.AWS_REGION.getD "ap-southeast-1")))
    ∧ (truthy env.AWS_ROLE_ARN = false →
       init_aws_clients env w =
         Except.ok (Session.fromProfileRegion env.AWS_PROFILE
           (env.AWS_REGION.getD "ap-southeast-1"))) := by
  refine ⟨?_, ?_, ?_⟩
  · intro arn p creds hrole harn hprof hp hassume
    simp [init_aws_clients, AWSClient.init, AWSClient.authenticate, pyOr,
      truthy, hrole, harn, hprof, hp, hassume]
  · intro arn creds hrole harn hprof hassume
    have ht : truthy (some arn) = true := by simp [truthy, harn]
    simp [init_aws_clients, AWSClient.init, AWSClient.authenticate, pyOr,
      hrole, ht, hprof, hassume]
  · intro hrole
    simp [init_aws_clients, AWSClient.init, pyOr, hrole]

/-- Witness for C1: the three credential-selection branches evaluated
on sample environments. -/
theorem c1_auth_precedence_witness :
    init_aws_clients envRole w0 =
      Except.ok (Session.fromCreds "AK" "SK" "TOK" "us-east-1")
    ∧ init_aws_clients envRoleNoProfile w0 =
      Except.ok (Session.fromCreds "AK" "SK" "TOK" "ap-southeast-1")
    ∧ init_aws_clients env0 w0 =
      Except.ok (Session.fromProfileRegion (some "dev") "ap-southeast-1") :=
  ⟨(c1_auth_precedence envRole w0).1 "arn:aws:iam::123456789012:role/MyRole" "dev"
     { AccessKeyId := "AK", SecretAccessKey := "SK", SessionToken := "TOK" }
     rfl (by decide) rfl (by decide) rfl,
   (c1_auth_precedence envRoleNoProfile w0).2.1 "arn:aws:iam::123456789012:role/MyRole"
     { AccessKeyId := "AK", SecretAccessKey := "SK", SessionToken := "TOK" }
     rfl (by decide) rfl rfl,
   (c1_auth_precedence env0 w0).2.2 rfl⟩

/-- The per-instance loop of get_ec2_instances on well-formed
describe_instances responses: one record and one call per container
instance, in order. -/
theorem describeLoop_spec (w : AwsWorld) (f : ContainerInstance → Ec2Instance)
    (insts : List ContainerInstance)
    (h : ∀ i ∈ insts, ∃ extra res,
       w.describeInstances [i.ec2InstanceId] =
         Except.ok ({ Instances := f i :: extra } :: res)) :
    describeLoop w insts =
      (Except.ok (insts.map (fun i =>
         { InstanceId := i.ec2InstanceId, InstanceType := (f i).InstanceType,
           State := (f i).State.Name, Status := i.status,
           RunningTasks := i.runningTasksCount })),
       insts.map (fun i => AwsCall.describeInstances [i.ec2InstanceId])) := by
  induction insts with
  | nil => rfl
  | cons inst rest ih =>
    obtain ⟨extra, res, hd⟩ := h inst (by simp)
    have ihr := ih (fun i hi => h i (by simp [hi]))
    simp [describeLoop, hd, extract_instance_info, ihr, Except.map]

/-- Claim C2: for every cluster, get_ec2_instances performs
list_container_instances, describe_container_instances on exactly the
returned ARNs, then describe_instances per container instance, and
returns one record per container instance with exactly the fields
InstanceId, InstanceType, State, Status and RunningTasks taken from
the corresponding responses. -/
theorem c2_ec2_chain (w : AwsWorld) (cluster_name : String) (arns : List String)
    (insts : List ContainerInstance) (f : ContainerInstance → Ec2Instance)
    (h1 : w.listContainerInstances cluster_name = Except.ok arns)
    (h2 : arns ≠ [])
    (h3 : w.describeContainerInstances cluster_name arns = Except.ok insts)
    (h4 : ∀ i ∈ insts, ∃ extra res,
       w.describeInstances [i.ec2InstanceId] =
         Except.ok ({ Instances := f i :: extra } :: res)) :
    get_ec2_instances w cluster_name =
      (Except.ok (insts.map (fun i =>
         { InstanceId := i.ec2InstanceId, InstanceType := (f i).InstanceType,
           State := (f i).State.Name, Status := i.status,
           RunningTasks := i.runningTasksCount })),
       AwsCall.listContainerInstances cluster_name ::
         AwsCall.describeContainerInstances cluster_name arns ::
         insts.map (fun i => AwsCall.describeInstances [i.ec2InstanceId])) := by
  have hl := describeLoop_spec w f insts h4
  have hemp : arns.isEmpty = false := by
    cases arns with
    | nil => exact absurd rfl h2
    | cons a t => rfl
  simp [get_ec2_instances, h1, hemp, h3, hl]

/-- Witness for C2 on the sample world. -/
theorem c2_ec2_chain_witness :
    get_ec2_instances w0 "prod" =
      (Except.ok [{ InstanceId := "i-0a", InstanceType := "t3.medium",
                    State := "running", Status := "ACTIVE", RunningTasks := 2 }],
       [AwsCall.listContainerInstances "prod",
        AwsCall.describeContainerInstances "prod"
          ["arn:aws:ecs:ap-southeast-1:123456789012:container-instance/prod/abc"],
        AwsCall.describeInstances ["i-0a"]]) :=
  c2_ec2_chain w0 "prod"
    ["arn:aws:ecs:ap-southeast-1:123456789012:container-instance/prod/abc"]
    [{ ec2InstanceId := "i-0a", status := "ACTIVE", runningTasksCount := 2 }]
    (fun _ => { InstanceType := "t3.medium", State := { Name := "running" } })
    rfl (by decide) rfl
    (by
      intro i hi
      simp at hi
      subst hi
      exact ⟨[], [], rfl⟩)

/-- Claim C6: for every cluster, get_containers performs list_tasks
then describe_tasks on the returned task ARNs, and returns one record
per container of each described task, with the container name, its
lastStatus, the task ARN suffix after the last slash, cpu and memory
defaulting to N/A, and Created formatted from the createdAt
timestamp. -/
theorem c6_containers (w : AwsWorld) (cluster_name : String)
    (task_arns : List String) (tasks : List EcsTask)
    (h1 : w.listTasks cluster_name = Except.ok task_arns)
    (h2 : task_arns ≠ [])
    (h3 : w.describeTasks cluster_name task_arns = Except.ok tasks) :
    get_containers w cluster_name =
      (Except.ok (tasks.flatMap (fun t => t.containers.map (fun c =>
         { Name := c.name, Status := c.lastStatus,
           TaskId := lastSlashComponent t.taskArn,
           CPU := c.cpu.getD "N/A", Memory := c.memory.getD "N/A",
           Created := format_timestamp t.createdAt }))),
       [AwsCall.listTasks cluster_name,
        AwsCall.describeTasks cluster_name task_arns]) := by
  have hemp : task_arns.isEmpty = false := by
    cases task_arns with
    | nil => exact absurd rfl h2
    | cons a t => rfl
  simp only [get_containers, h1, hemp, h3, Bool.false_eq_true, if_false]
  rfl

/-- Witness for C6 on the sample world. -/
theorem c6_containers_witness :
    get_containers w0 "prod" =
      (Except.ok [{ Name := "web", Status := "RUNNING", TaskId := "task1",
                    CPU := "256", Memory := "N/A",
                    Created := "1970-01-02 00:00:00" }],
       [AwsCall.listTasks "prod",
        AwsCall.describeTasks "prod"
          ["arn:aws:ecs:ap-southeast-1:123456789012:task/prod/task1"]]) := by
  have h := c6_containers w0 "prod"
    ["arn:aws:ecs:ap-southeast-1:123456789012:task/prod/task1"]
    [{ taskArn := "arn:aws:ecs:ap-southeast-1:123456789012:task/prod/task1"
       createdAt := 86400
       containers := [{ name := "web", lastStatus := "RUNNING"
                        cpu := some "256", memory := none }] }]
    rfl (by decide) rfl
  rw [h]
  decide

/-- Claim C5: the exec command launches the SSM subprocess only when a
current cluster is selected, the instance id matches a record of
get_ec2_instances for that cluster, and check_ssm_status reports the
instance available; in every other case it exits with status 1 without
launching. -/
theorem c5_exec_guard (env : Env) (w : AwsWorld) (cfg : Config) (instance_id : String) :
    (∀ cmd, exec_instance env w cfg instance_id = ExecResult.launched cmd →
       ∃ cl, get_current_cluster cfg = some cl ∧ cl ≠ "" ∧
         (∃ insts rec, (get_ec2_instances w cl).1 = Except.ok insts ∧
            rec ∈ insts ∧ rec.InstanceId = instance_id) ∧
         check_ssm_status w instance_id = Except.ok true)
    ∧ ((¬ ∃ cl, get_current_cluster cfg = some cl ∧ cl ≠ "" ∧
         (∃ insts rec, (get_ec2_instances w cl).1 = Except.ok insts ∧
            rec ∈ insts ∧ rec.InstanceId = instance_id) ∧
         check_ssm_status w instance_id = Except.ok true) →
       exec_instance env w cfg instance_id = ExecResult.exitOne) := by
  have key : ∀ cmd, exec_instance env w cfg instance_id = ExecResult.launched cmd →
      ∃ cl, get_current_cluster cfg = some cl ∧ cl ≠ "" ∧
        (∃ insts rec, (get_ec2_instances w cl).1 = Except.ok insts ∧
           rec ∈ insts ∧ rec.InstanceId = instance_id) ∧
        check_ssm_status w instance_id = Except.ok true := by
    intro cmd h
    cases hinit : ECSController.init env w with
    | error e => simp [exec_instance, hinit] at h
    | ok s =>
      cases hcur : get_current_cluster cfg with
      | none => simp [exec_instance, hinit, hcur, truthy] at h
      | some cl =>
        by_cases hne : cl = ""
        · subst hne
          simp [exec_instance, hinit, hcur, truthy] at h
        · have ht : truthy (some cl) = true := by simp [truthy, hne]
          cases hdet : get_instance_details w cl instance_id with
          | error e => simp [exec_instance, hinit, hcur, ht, hdet] at h
          | ok o =>
            cases o with
            | none => simp [exec_instance, hinit, hcur, ht, hdet] at h
            | some rec =>
              cases hssm : check_ssm_status w instance_id with
              | error e => simp [exec_instance, hinit, hcur, ht, hdet, hssm] at h
              | ok b =>
                cases b with
                | false => simp [exec_instance, hinit, hcur, ht, hdet, hssm] at h
                | true =>
                  refine ⟨cl, rfl, hne, ?_, rfl⟩
                  cases hge : (get_ec2_instances w cl).1 with
                  | error e => simp [get_instance_details, hge] at hdet
                  | ok insts =>
                    have hf : insts.find? (fun i => i.InstanceId == instance_id) =
                        some rec := by
                      simpa [get_instance_details, hge] using hdet
                    refine ⟨insts, rec, rfl, List.mem_of_find?_eq_some hf, ?_⟩
                    have hp := List.find?_some hf
                    simpa using hp
  refine ⟨key, ?_⟩
  intro hnp
  cases hres : exec_instance env w cfg instance_id with
  | launched cmd => exact absurd (key cmd hres) hnp
  | exitOne => rfl

/-- Witness for C5: the subprocess launch on the sample world
satisfies the preconditions, and an empty selection exits 1. -/
theorem c5_exec_guard_witness :
    (∃ cl, get_current_cluster cfg0 = some cl ∧ cl ≠ "" ∧
       (∃ insts rec, (get_ec2_instances w0 cl).1 = Except.ok insts ∧
          rec ∈ insts ∧ rec.InstanceId = "i-0a") ∧
       check_ssm_status w0 "i-0a" = Except.ok true)
    ∧ exec_instance env0 w0 initialConfig "i-0a" = ExecResult.exitOne :=
  ⟨(c5_exec_guard env0 w0 cfg0 "i-0a").1
     ["aws", "ssm", "start-session", "--target", "i-0a",
      "--profile", "dev", "--region", "ap-southeast-1"] (by decide),
   (c5_exec_guard env0 w0 initialConfig "i-0a").2
     (by
       rintro ⟨cl, hcl, -⟩
       simp [get_current_cluster, initialConfig] at hcl)⟩

/-- Claim C10: the use-cluster command persists the cluster name only
after verifying it is among get_clusters; on an unknown name it exits
1 and leaves the config unchanged. -/
theorem c10_use_cluster (env : Env) (w : AwsWorld) (cfg : Config)
    (cluster_name : String) :
    (∀ clusters, get_clusters w = Except.ok clusters → cluster_name ∉ clusters →
       use_cluster env w cfg cluster_name = (UseClusterResult.exitOne, cfg))
    ∧ (∀ r cfg2, use_cluster env w cfg cluster_name = (r, cfg2) → cfg2 ≠ cfg →
       ∃ clusters, get_clusters w = Except.ok clusters ∧ cluster_name ∈ clusters ∧
         r = UseClusterResult.switched ∧
         cfg2 = set_current_cluster cfg cluster_name) := by
  constructor
  · intro clusters hg hnm
    unfold use_cluster
    cases hinit : ECSController.init env w with
    | error e => rfl
    | ok s => simp [hg, hnm]
  · intro r cfg2 hu hne
    unfold use_cluster at hu
    cases hinit : ECSController.init env w with
    | error e =>
      rw [hinit] at hu
      simp at hu
      exact absurd hu.2.symm hne
    | ok s =>
      rw [hinit] at hu
      cases hg : get_clusters w with
      | error e =>
        rw [hg] at hu
        simp at hu
        exact absurd hu.2.symm hne
      | ok clusters =>
        rw [hg] at hu
        by_cases hm : cluster_name ∈ clusters
        · simp [hm] at hu
          exact ⟨clusters, rfl, hm, hu.1.symm, hu.2.symm⟩
        · simp [hm] at hu
          exact absurd hu.2.symm hne

/-- Witness for C10: an unknown name leaves the sample config intact,
and a successful switch passes the membership check. -/
theorem c10_use_cluster_witness :
    use_cluster env0 w0 cfg0 "stg" = (UseClusterResult.exitOne, cfg0)
    ∧ ∃ clusters, get_clusters w0 = Except.ok clusters ∧ "prod" ∈ clusters ∧
        UseClusterResult.switched = UseClusterResult.switched ∧
        [("current-cluster", some "prod")] = set_current_cluster initialConfig "prod" :=
  ⟨(c10_use_cluster env0 w0 cfg0 "stg").1 ["prod"] (by decide) (by decide),
   (c10_use_cluster env0 w0 initialConfig "prod").2 UseClusterResult.switched
     [("current-cluster", some "prod")] (by decide) (by decide)⟩

end Ecsctl
